import Mathlib

/-!
Shallow embedding of `service/telemetry/otelconftelemetry/logger.go` from the
opentelemetry-collector repository: the `createLogger` assembly pipeline and the
`separateOutputPaths` destination classifier, together with proofs about them.

Zap severity levels are embedded as integers, following `zapcore.Level`
(Debug = -1, Info = 0, Warn = 1, Error = 2, ...); a core with threshold `t`
accepts a record at level `l` iff `t ≤ l` (zapcore's `Enabled`).
-/

/-- Zap debug level (`zapcore.DebugLevel = -1`). -/
def debugLevel : Int := -1

/-- Zap info level (`zapcore.InfoLevel = 0`). -/
def infoLevel : Int := 0

/-- Zap warn level (`zapcore.WarnLevel = 1`). -/
def warnLevel : Int := 1

/-- Zap error level (`zapcore.ErrorLevel = 2`), the fixed threshold given to the
rotation cores built for error-only output paths (logger.go line 121). -/
def errorLevel : Int := 2

/-- A structured field value on a zap record.  The only nested value the code
builds is `zap.Dict("resource", ...fields...)` whose children are all
`zap.String` fields (logger.go lines 139-144), so a dict is embedded directly
as its list of string-valued children. -/
inductive FieldValue where
  | str : String → FieldValue
  | dict : List (String × String) → FieldValue
  deriving DecidableEq, Repr

/-- A zap field (zap.Field): a key paired with a value. -/
abbrev ZapField := String × FieldValue

/-- `cfg.Logs.Rotation`: lumberjack rotation parameters (Go ints/bool). -/
structure RotationConfig where
  maxSizeMB : Int
  maxBackups : Int
  maxAgeDays : Int
  compress : Bool
  deriving DecidableEq, Repr

/-- `cfg.Logs.Sampling`: zap sampler parameters (tick is a duration, counts are
Go ints). -/
structure SamplingConfig where
  enabled : Bool
  tick : Nat
  initial : Int
  thereafter : Int
  deriving DecidableEq, Repr

/-- The part of the telemetry `Config` (its `Logs` section) that `createLogger`
reads.  The export-processor list only feeds the external SDK and carries no
information used by the assembly logic embedded here. -/
structure LogsConfig where
  level : Int
  development : Bool
  encoding : String
  outputPaths : List String
  errorOutputPaths : List String
  disableCaller : Bool
  disableStacktrace : Bool
  initialFields : List ZapField
  rotation : Option RotationConfig
  sampling : Option SamplingConfig
  deriving DecidableEq, Repr

/-- The test of logger.go lines 192-194: a path counts as a console path when it
equals "stdout" or "stderr", or when it starts with "file://stdout" or
"file://stderr" (Go `strings.HasPrefix`, embedded by comparing character
lists). -/
def isConsolePath (path : String) : Bool :=
  path == "stdout" || path == "stderr" ||
  List.isPrefixOf "file://stdout".data path.data ||
  List.isPrefixOf "file://stderr".data path.data

/-- `separateOutputPaths` (logger.go lines 189-201): walk the input list,
appending each console path to the first component and every other path to the
second, preserving order. -/
def separateOutputPaths (paths : List String) : List String × List String :=
  match paths with
  | [] => ([], [])
  | path :: rest =>
    let (consolePaths, filePaths) := separateOutputPaths rest
    if isConsolePath path then
      (path :: consolePaths, filePaths)
    else
      (consolePaths, path :: filePaths)

/-- The console output-path list handed to `zap.Config` (logger.go lines 35-51):
with rotation configured, the console half of the classification, with
`["stderr"]` substituted when it is empty; without rotation, the configured
list unchanged. -/
def computedOutputPaths (cfg : LogsConfig) : List String :=
  if cfg.rotation.isSome then
    let consolePaths := (separateOutputPaths cfg.outputPaths).1
    if consolePaths.isEmpty then ["stderr"] else consolePaths
  else cfg.outputPaths

/-- Same as `computedOutputPaths` for the error-only list `ErrorOutputPaths`
(logger.go lines 42, 48-50). -/
def computedErrorOutputPaths (cfg : LogsConfig) : List String :=
  if cfg.rotation.isSome then
    let consolePaths := (separateOutputPaths cfg.errorOutputPaths).1
    if consolePaths.isEmpty then ["stderr"] else consolePaths
  else cfg.errorOutputPaths

/-- The `filePaths` variable of logger.go: the durable half of the normal list
when rotation is configured, otherwise left nil (line 37). -/
def computedFilePaths (cfg : LogsConfig) : List String :=
  if cfg.rotation.isSome then (separateOutputPaths cfg.outputPaths).2 else []

/-- The `errorFilePaths` variable of logger.go. -/
def computedErrorFilePaths (cfg : LogsConfig) : List String :=
  if cfg.rotation.isSome then (separateOutputPaths cfg.errorOutputPaths).2 else []

/-- The `zap.Config` literal built at logger.go lines 53-63, with the
(possibly substituted) output path lists.  `InitialFields` become context
fields of the base core when `Build` runs. -/
structure ZapConfig where
  level : Int
  development : Bool
  encoding : String
  outputPaths : List String
  errorOutputPaths : List String
  disableCaller : Bool
  disableStacktrace : Bool
  initialFields : List ZapField
  deriving DecidableEq, Repr

/-- The `zap.Config` value `createLogger` builds from `cfg.Logs`. -/
def zapConfigOf (cfg : LogsConfig) : ZapConfig :=
  { level := cfg.level
    development := cfg.development
    encoding := cfg.encoding
    outputPaths := computedOutputPaths cfg
    errorOutputPaths := computedErrorOutputPaths cfg
    disableCaller := cfg.disableCaller
    disableStacktrace := cfg.disableStacktrace
    initialFields := cfg.initialFields }

/-- One rotation-backed file core: a `lumberjack.Logger` sink wrapped by
`zapcore.NewCore(encoder, w, level)` (logger.go lines 89-124).  `encoding`
records which encoder was constructed for it and `level` its enabler
threshold. -/
structure FileCoreSpec where
  filename : String
  maxSize : Int
  maxBackups : Int
  maxAge : Int
  compress : Bool
  encoding : String
  level : Int
  deriving DecidableEq, Repr

/-- A file core accepts a record exactly when the record's level reaches the
core's threshold (`zapcore.LevelEnabler`). -/
def FileCoreSpec.accepts (s : FileCoreSpec) (lvl : Int) : Bool :=
  s.level ≤ lvl

/-- The chain of zap cores assembled by `createLogger`, one constructor per
wrapping stage in logger.go:
* `base` — the core produced by `zapCfg.Build` (console/plain outputs);
* `rotTee` — `zapcore.NewTee` of the existing core and the rotation file cores
  (lines 77-127);
* `withFields` — `c.With(fields)` adding context fields (line 145);
* `sampler` — `zapcore.NewSamplerWithOptions` (lines 150-157);
* `consoleAttr` — `componentattribute.NewConsoleCoreWithAttributes` (line 174);
* `otelTee` — `componentattribute.NewOTelTeeCoreWithAttributes` over the SDK's
  logger provider (lines 175-180); `providerRes` records the resource
  attributes the SDK's provider was built with. -/
inductive Core where
  | base (zc : ZapConfig)
  | rotTee (inner : Core) (fileCores : List FileCoreSpec)
  | withFields (fields : List ZapField) (inner : Core)
  | sampler (tick : Nat) (initial : Int) (thereafter : Int) (inner : Core)
  | consoleAttr (inner : Core)
  | otelTee (scope : String) (providerRes : List (String × String)) (inner : Core)
  deriving DecidableEq, Repr

/-- The encoder constructed for rotation file cores (logger.go lines 81-86):
JSON when the configured encoding is "json", console otherwise. -/
def rotationEncoding (encoding : String) : String :=
  if encoding == "json" then "json" else "console"

/-- The file core built for one durable path (logger.go lines 89-103 and
108-123): lumberjack parameters from `RotationConfig`, the shared encoder, and
the given level enabler. -/
def rotationFileCore (rot : RotationConfig) (encoding : String) (level : Int)
    (path : String) : FileCoreSpec :=
  { filename := path
    maxSize := rot.maxSizeMB
    maxBackups := rot.maxBackups
    maxAge := rot.maxAgeDays
    compress := rot.compress
    encoding := encoding
    level := level }

/-- The file cores for the normal durable paths: enabler is `zapCfg.Level`,
the configured overall level (logger.go line 101). -/
def normalRotationFileCores (cfg : LogsConfig) : List FileCoreSpec :=
  match cfg.rotation with
  | none => []
  | some rot =>
    (computedFilePaths cfg).map
      (rotationFileCore rot (rotationEncoding cfg.encoding) cfg.level)

/-- The file cores for the error-only durable paths: enabler is the fixed
`zapcore.ErrorLevel` (logger.go line 121), not the configured level. -/
def errorRotationFileCores (cfg : LogsConfig) : List FileCoreSpec :=
  match cfg.rotation with
  | none => []
  | some rot =>
    (computedErrorFilePaths cfg).map
      (rotationFileCore rot (rotationEncoding cfg.encoding) errorLevel)

/-- All rotation file cores, normal first then error-only, the order they are
appended to `cores` in logger.go. -/
def rotationFileCores (cfg : LogsConfig) : List FileCoreSpec :=
  normalRotationFileCores cfg ++ errorRotationFileCores cfg

/-- The rotation stage (logger.go lines 76-128): only when rotation is
configured and at least one durable path exists in either list does the core
get replaced by a tee of the existing core and the rotation file cores;
otherwise the core is left untouched. -/
def applyRotation (cfg : LogsConfig) (c : Core) : Core :=
  if cfg.rotation.isSome
      && (!(computedFilePaths cfg).isEmpty || !(computedErrorFilePaths cfg).isEmpty) then
    Core.rotTee c (rotationFileCores cfg)
  else c

/-- The single `resource` dict field built at logger.go lines 139-144: each
resource attribute becomes a string child via `attr.Value.Emit()` (attributes
are embedded as key/emitted-text pairs). -/
def resourceField (attrs : List (String × String)) : ZapField :=
  ("resource", FieldValue.dict attrs)

/-- The resource-attribute stage (logger.go lines 137-147): when the resource
has attributes, wrap the core with `c.With([resource dict])` — one added
context field at core level; otherwise leave the core untouched. -/
def applyResource (attrs : List (String × String)) (c : Core) : Core :=
  if attrs.isEmpty then c else Core.withFields [resourceField attrs] c

/-- The sampling stage (logger.go lines 149-158): wrap with the zap sampler
only when sampling is configured and enabled. -/
def applySampling (cfg : LogsConfig) (c : Core) : Core :=
  match cfg.sampling with
  | none => c
  | some s =>
    if s.enabled then Core.sampler s.tick s.initial s.thereafter c else c

/-- Instrumentation scope name passed to the OTel tee (logger.go line 178). -/
def serviceScopeName : String := "go.opentelemetry.io/collector/service"

/-- The final wrap (logger.go lines 173-182): the console-attribute core, then
the OTel tee over the SDK's logger provider, both starting with empty scope
attribute sets.  The provider was constructed by `newSDK` from the resource,
so the tee carries the resource attributes on its export side. -/
def applyExportTee (attrs : List (String × String)) (c : Core) : Core :=
  Core.otelTee serviceScopeName attrs (Core.consoleAttr c)

/-- The whole core-assembly sequence of `createLogger`, in source order:
build the base core from the (substituted) path lists, then the rotation
stage, then resource-attribute injection, then sampling, then the export
tee.  `attrs` is `res.Attributes()` as key/emitted-text pairs. -/
def assembleCore (cfg : LogsConfig) (attrs : List (String × String)) : Core :=
  let logger := Core.base (zapConfigOf cfg)
  let logger := applyRotation cfg logger
  let logger := applyResource attrs logger
  let logger := applySampling cfg logger
  applyExportTee attrs logger

/-- Modelled from the spec: the record delivered on the export side of the
OTel tee.  `newSDK` (not under src/) builds the logger provider from the
resource, and the source comment at logger.go lines 130-136 states that the
resource attributes "are added to logs exported through the LoggerProvider";
so the exported copy carries the resource group once (when the resource has
attributes) in addition to the record's own fields. -/
def exportedRecord (providerRes : List (String × String)) (fs : List ZapField) :
    List ZapField :=
  if providerRes.isEmpty then fs else resourceField providerRes :: fs

/-- The list of records (as field lists) delivered to the individual sinks when
a record at level `lvl` with call-site fields `fs` is written through a core:
* the base core delivers one record carrying its initial fields when its
  threshold allows the level;
* a rotation tee delivers through the inner core and through each file core
  whose enabler allows the level (the file record carries exactly the fields
  passed down — file cores are fresh `zapcore.NewCore`s with no context);
* `With`-added context fields precede later fields, zap's accumulation order;
* the sampler passes a record it lets through unchanged (field-wise);
* the console-attribute core is field-wise transparent (its scope attribute
  set starts empty);
* the OTel tee delivers the exported copy and everything the wrapped core
  delivers. -/
def deliveredRecords (lvl : Int) : Core → List ZapField → List (List ZapField)
  | Core.base zc, fs => if zc.level ≤ lvl then [zc.initialFields ++ fs] else []
  | Core.rotTee inner fileCores, fs =>
    deliveredRecords lvl inner fs
      ++ (fileCores.filter (·.accepts lvl)).map (fun _ => fs)
  | Core.withFields g inner, fs => deliveredRecords lvl inner (g ++ fs)
  | Core.sampler _ _ _ inner, fs => deliveredRecords lvl inner fs
  | Core.consoleAttr inner, fs => deliveredRecords lvl inner fs
  | Core.otelTee _ providerRes inner, fs =>
    exportedRecord providerRes fs :: deliveredRecords lvl inner fs

/-- Number of fields named "resource" on a record. -/
def resourceFieldCount (fs : List ZapField) : Nat :=
  fs.countP (fun f => f.1 == "resource")

/-- The observable outcome of `createLogger`: whether an error was returned,
whether a logger and shutdown function were returned, and which destinations
opened during assembly are still open when the function returns.  `buildOk`
models whether `zapCfg.Build` succeeds (zap cleans up the sinks itself when it
fails), `sdkOk` whether `newSDK` succeeds. -/
structure CreateLoggerOutcome where
  logger : Option Core
  shutdown : Bool
  errored : Bool
  openSinks : List String
  deriving DecidableEq, Repr

/-- `createLogger` (logger.go lines 22-185) at the outcome level.  A successful
`zapCfg.Build` opens every path in the two (possibly substituted) output
lists.  On `newSDK` failure the function returns `nil, nil, err` immediately
(lines 165-167) without closing anything, so the opened sinks stay open. -/
def createLogger (cfg : LogsConfig) (attrs : List (String × String))
    (buildOk : Bool) (sdkOk : Bool) : CreateLoggerOutcome :=
  if !buildOk then
    { logger := none, shutdown := false, errored := true, openSinks := [] }
  else
    let opened := computedOutputPaths cfg ++ computedErrorOutputPaths cfg
    if !sdkOk then
      { logger := none, shutdown := false, errored := true, openSinks := opened }
    else
      { logger := some (assembleCore cfg attrs), shutdown := true,
        errored := false, openSinks := opened }

/-- Sample rotation settings used for concrete evaluations. -/
def exampleRotation : RotationConfig :=
  { maxSizeMB := 100, maxBackups := 3, maxAgeDays := 7, compress := true }

/-- Sample sampling settings (enabled), matching the spec's example
tick=1s, initial=2, thereafter=5. -/
def exampleSampling : SamplingConfig :=
  { enabled := true, tick := 1000000000, initial := 2, thereafter := 5 }

/-- Sample resource attributes, as in the spec's `{service: "x"}` example. -/
def exampleAttrs : List (String × String) := [("service.name", "x")]

/-- A config with rotation, sampling, and both console and durable paths. -/
def exampleRotatedConfig : LogsConfig :=
  { level := infoLevel
    development := false
    encoding := "json"
    outputPaths := ["stdout", "/var/log/otelcol.log"]
    errorOutputPaths := ["stderr", "/var/log/otelcol-err.log"]
    disableCaller := false
    disableStacktrace := false
    initialFields := []
    rotation := some exampleRotation
    sampling := some exampleSampling }

/-- A config with rotation whose configured targets are all durable, so both
console halves are empty after classification. -/
def exampleAllDurableConfig : LogsConfig :=
  { level := infoLevel
    development := false
    encoding := "json"
    outputPaths := ["/var/log/a.log"]
    errorOutputPaths := ["/var/log/b.log"]
    disableCaller := false
    disableStacktrace := false
    initialFields := []
    rotation := some exampleRotation
    sampling := none }

/-- A config with rotation whose configured targets are all console, so no
durable path exists in either list. -/
def exampleRotatedConsoleConfig : LogsConfig :=
  { level := infoLevel
    development := false
    encoding := "console"
    outputPaths := ["stdout"]
    errorOutputPaths := []
    disableCaller := false
    disableStacktrace := false
    initialFields := []
    rotation := some exampleRotation
    sampling := none }

/-- A config without rotation and with console targets. -/
def exampleConsoleConfig : LogsConfig :=
  { level := infoLevel
    development := false
    encoding := "console"
    outputPaths := ["stdout"]
    errorOutputPaths := ["stderr"]
    disableCaller := false
    disableStacktrace := false
    initialFields := []
    rotation := none
    sampling := none }

/-- A config without rotation and with empty output-path lists. -/
def examplePlainEmptyConfig : LogsConfig :=
  { level := infoLevel
    development := false
    encoding := "console"
    outputPaths := []
    errorOutputPaths := []
    disableCaller := false
    disableStacktrace := false
    initialFields := []
    rotation := none
    sampling := none }

/-! ## Helper lemmas -/

/-- The classifier loop is the filtering of the input by `isConsolePath`
paired with the filtering by its negation. -/
theorem separateOutputPaths_eq_filter (l : List String) :
    separateOutputPaths l
      = (l.filter isConsolePath, l.filter fun p => !isConsolePath p) := by
  induction l with
  | nil => rfl
  | cons p rest ih =>
    by_cases h : isConsolePath p = true <;>
      simp [separateOutputPaths, ih, List.filter_cons, h]

/-- Every path in the console half of the classification is a console path. -/
theorem consoleHalf_all_console (l : List String) :
    ((separateOutputPaths l).1.all isConsolePath) = true := by
  rw [separateOutputPaths_eq_filter, List.all_eq_true]
  intro p hp
  exact (List.mem_filter.mp hp).2

/-- With rotation configured, the substituted normal output list is nonempty. -/
theorem computedOutputPaths_rot_ne_nil (cfg : LogsConfig)
    (hrot : cfg.rotation.isSome = true) : computedOutputPaths cfg ≠ [] := by
  unfold computedOutputPaths
  rw [hrot]
  by_cases h : (separateOutputPaths cfg.outputPaths).1.isEmpty <;>
    simp_all [List.isEmpty_iff]

/-- With rotation configured, the substituted error output list is nonempty. -/
theorem computedErrorOutputPaths_rot_ne_nil (cfg : LogsConfig)
    (hrot : cfg.rotation.isSome = true) : computedErrorOutputPaths cfg ≠ [] := by
  unfold computedErrorOutputPaths
  rw [hrot]
  by_cases h : (separateOutputPaths cfg.errorOutputPaths).1.isEmpty <;>
    simp_all [List.isEmpty_iff]

/-- With rotation configured, the substituted normal output list holds console
paths only. -/
theorem computedOutputPaths_rot_all_console (cfg : LogsConfig)
    (hrot : cfg.rotation.isSome = true) :
    ((computedOutputPaths cfg).all isConsolePath) = true := by
  unfold computedOutputPaths
  rw [hrot]
  by_cases h : (separateOutputPaths cfg.outputPaths).1.isEmpty <;>
    simp [h, consoleHalf_all_console]
  decide

/-- With rotation configured, the substituted error output list holds console
paths only. -/
theorem computedErrorOutputPaths_rot_all_console (cfg : LogsConfig)
    (hrot : cfg.rotation.isSome = true) :
    ((computedErrorOutputPaths cfg).all isConsolePath) = true := by
  unfold computedErrorOutputPaths
  rw [hrot]
  by_cases h : (separateOutputPaths cfg.errorOutputPaths).1.isEmpty <;>
    simp [h, consoleHalf_all_console]
  decide

/-- Counting "resource" fields distributes over append. -/
theorem resourceFieldCount_append (a b : List ZapField) :
    resourceFieldCount (a ++ b) = resourceFieldCount a + resourceFieldCount b := by
  simp [resourceFieldCount, List.countP_append]

/-- The single resource dict field counts as one "resource" field. -/
theorem resourceFieldCount_resourceField (attrs : List (String × String))
    (fs : List ZapField) :
    resourceFieldCount (resourceField attrs :: fs) = 1 + resourceFieldCount fs := by
  simp [resourceFieldCount, List.countP_cons, resourceField, Nat.add_comm]

/-- Records delivered by a resource-clean base core carry exactly the
"resource" fields of the written fields. -/
theorem deliveredRecords_base_count (zc : ZapConfig) (lvl : Int)
    (fs : List ZapField) (hinit : resourceFieldCount zc.initialFields = 0) :
    ∀ r ∈ deliveredRecords lvl (Core.base zc) fs,
      resourceFieldCount r = resourceFieldCount fs := by
  intro r hr
  rw [deliveredRecords] at hr
  split at hr
  · rw [List.mem_singleton] at hr
    subst hr
    rw [resourceFieldCount_append, hinit, Nat.zero_add]
  · exact absurd hr (List.not_mem_nil r)

/-- Records delivered by the (possibly rotated) pre-injection core carry
exactly the "resource" fields of the written fields: the base core's initial
fields are resource-clean by hypothesis and the rotation file cores add no
context of their own. -/
theorem deliveredRecords_applyRotation_count (cfg : LogsConfig) (lvl : Int)
    (fs : List ZapField)
    (hinit : resourceFieldCount cfg.initialFields = 0) :
    ∀ r ∈ deliveredRecords lvl (applyRotation cfg (Core.base (zapConfigOf cfg))) fs,
      resourceFieldCount r = resourceFieldCount fs := by
  have hbase : resourceFieldCount (zapConfigOf cfg).initialFields = 0 := hinit
  intro r hr
  unfold applyRotation at hr
  split at hr
  · rw [deliveredRecords, List.mem_append] at hr
    rcases hr with hr | hr
    · exact deliveredRecords_base_count _ _ _ hbase r hr
    · rw [List.mem_map] at hr
      rcases hr with ⟨s, _, rfl⟩
      rfl
  · exact deliveredRecords_base_count _ _ _ hbase r hr

/-- The sampling stage does not change which records are delivered nor their
fields. -/
theorem deliveredRecords_applySampling (cfg : LogsConfig) (lvl : Int) (c : Core)
    (fs : List ZapField) :
    deliveredRecords lvl (applySampling cfg c) fs = deliveredRecords lvl c fs := by
  unfold applySampling
  cases cfg.sampling with
  | none => rfl
  | some s =>
    by_cases hs : s.enabled = true <;> simp [hs, deliveredRecords]

/-- Every rotation file core built for an error-only durable path carries the
fixed encoder and the fixed error-level threshold. -/
theorem errorRotationFileCores_level (cfg : LogsConfig) :
    ∀ s ∈ errorRotationFileCores cfg, s.level = errorLevel := by
  intro s hs
  unfold errorRotationFileCores at hs
  cases hrot : cfg.rotation with
  | none => rw [hrot] at hs; exact absurd hs (List.not_mem_nil s)
  | some rot =>
    rw [hrot, List.mem_map] at hs
    rcases hs with ⟨path, _, rfl⟩
    rfl

/-- Every rotation file core carries the encoder chosen from the configured
encoding. -/
theorem rotationFileCores_encoding (cfg : LogsConfig) :
    ∀ s ∈ rotationFileCores cfg, s.encoding = rotationEncoding cfg.encoding := by
  intro s hs
  rw [rotationFileCores, List.mem_append] at hs
  rcases hs with hs | hs
  · unfold normalRotationFileCores at hs
    cases hrot : cfg.rotation with
    | none => rw [hrot] at hs; exact absurd hs (List.not_mem_nil s)
    | some rot =>
      rw [hrot, List.mem_map] at hs
      rcases hs with ⟨path, _, rfl⟩
      rfl
  · unfold errorRotationFileCores at hs
    cases hrot : cfg.rotation with
    | none => rw [hrot] at hs; exact absurd hs (List.not_mem_nil s)
    | some rot =>
      rw [hrot, List.mem_map] at hs
      rcases hs with ⟨path, _, rfl⟩
      rfl

/-! ## Claim theorems -/

/-- C1: with rotation configured, every rotation core built from the
error-only durable paths has the fixed error-level threshold — independent of
the configured overall level, which is an arbitrary field of `cfg` here — and
it accepts a record exactly when the record's severity is at least error: a
record below error severity is rejected, a record at or above error severity
is accepted. -/
theorem error_sinks_fixed_error_threshold (cfg : LogsConfig) (lvl : Int)
    (hrot : cfg.rotation.isSome = true) :
    ((errorRotationFileCores cfg).all fun s =>
        s.level == errorLevel && (s.accepts lvl == decide (errorLevel ≤ lvl)))
      = true := by
  rw [List.all_eq_true]
  intro s hs
  have hlevel : s.level = errorLevel := errorRotationFileCores_level cfg s hs
  simp [FileCoreSpec.accepts, hlevel]

/-- C1 witness: concrete error-only rotation core of `exampleRotatedConfig`,
checked at info severity (below error). -/
theorem error_sinks_fixed_error_threshold_witness :
    exampleRotatedConfig.rotation.isSome = true ∧
    ((errorRotationFileCores exampleRotatedConfig).all fun s =>
        s.level == errorLevel
          && (s.accepts infoLevel == decide (errorLevel ≤ infoLevel)))
      = true :=
  ⟨by decide,
    error_sinks_fixed_error_threshold exampleRotatedConfig infoLevel (by decide)⟩

/-- C3: with rotation configured, the normal and error-only lists are
classified independently, the console half that ends up in the base core is
never empty, holds console (interactive) paths only, and equals `["stderr"]`
exactly in the case the classification left no console path. -/
theorem rotation_stderr_substitution (cfg : LogsConfig)
    (hrot : cfg.rotation.isSome = true) :
    computedOutputPaths cfg ≠ [] ∧
    computedErrorOutputPaths cfg ≠ [] ∧
    ((computedOutputPaths cfg).all isConsolePath) = true ∧
    ((computedErrorOutputPaths cfg).all isConsolePath) = true ∧
    ((separateOutputPaths cfg.outputPaths).1 = [] →
      computedOutputPaths cfg = ["stderr"]) ∧
    ((separateOutputPaths cfg.errorOutputPaths).1 = [] →
      computedErrorOutputPaths cfg = ["stderr"]) := by
  refine ⟨computedOutputPaths_rot_ne_nil cfg hrot,
    computedErrorOutputPaths_rot_ne_nil cfg hrot,
    computedOutputPaths_rot_all_console cfg hrot,
    computedErrorOutputPaths_rot_all_console cfg hrot, ?_, ?_⟩
  · intro h
    unfold computedOutputPaths
    rw [hrot]
    simp [h]
  · intro h
    unfold computedErrorOutputPaths
    rw [hrot]
    simp [h]

/-- C3 witness: with every configured target durable, both base lists become
`["stderr"]`. -/
theorem rotation_stderr_substitution_witness :
    exampleAllDurableConfig.rotation.isSome = true ∧
    computedOutputPaths exampleAllDurableConfig = ["stderr"] ∧
    computedErrorOutputPaths exampleAllDurableConfig = ["stderr"] :=
  ⟨by decide,
    (rotation_stderr_substitution exampleAllDurableConfig (by decide)).2.2.2.2.1
      (by decide),
    (rotation_stderr_substitution exampleAllDurableConfig (by decide)).2.2.2.2.2
      (by decide)⟩

/-- C4 counterexample: `separateOutputPaths` classifies as console any path
merely starting with "file://stdout" or "file://stderr", not only the exact
literals; "file://stderr.log" — a file named `stderr.log` referenced through a
file URI — is classified interactive although it is none of the four exact
literals the claim allows. -/
theorem classifier_not_exact_literals :
    separateOutputPaths ["file://stderr.log"] = (["file://stderr.log"], []) ∧
    ¬("file://stderr.log" = "stdout" ∨ "file://stderr.log" = "stderr" ∨
      "file://stderr.log" = "file://stdout" ∨
      "file://stderr.log" = "file://stderr") := by
  decide

/-- C4 amended: a destination is classified interactive exactly when it is one
of the two standard-stream names or it STARTS WITH "file://stdout" or
"file://stderr" (Go `strings.HasPrefix`); every other destination is
durable. -/
theorem classifier_rule (p : String) :
    (separateOutputPaths [p] = ([p], []) ∨ separateOutputPaths [p] = ([], [p])) ∧
    (separateOutputPaths [p] = ([p], []) ↔
      (p = "stdout" ∨ p = "stderr" ∨
        List.isPrefixOf "file://stdout".data p.data = true ∨
        List.isPrefixOf "file://stderr".data p.data = true)) := by
  have hsep : separateOutputPaths [p]
      = if isConsolePath p then ([p], []) else ([], [p]) := by
    by_cases h : isConsolePath p = true <;> simp [separateOutputPaths, h]
  constructor
  · by_cases h : isConsolePath p = true <;> simp [hsep, h]
  · rw [hsep]
    by_cases h : isConsolePath p = true
    · simp only [h, if_true, true_iff]
      have h2 := h
      rw [isConsolePath, Bool.or_eq_true, Bool.or_eq_true, Bool.or_eq_true] at h2
      rcases h2 with ((h2 | h2) | h2) | h2
      · exact Or.inl (by simpa using h2)
      · exact Or.inr (Or.inl (by simpa using h2))
      · exact Or.inr (Or.inr (Or.inl h2))
      · exact Or.inr (Or.inr (Or.inr h2))
    · simp only [h, if_false]
      constructor
      · intro hx
        exact absurd hx (by simp)
      · intro hx
        exfalso
        apply h
        rw [isConsolePath]
        rcases hx with hx | hx | hx | hx <;> simp [hx]

/-- C5: the classifier is a partition of the input: both outputs are
order-preserving subsequences of the input, their concatenation is a
permutation (multiset-equal) of the input, and each element's occurrences are
split exactly between the two outputs. -/
theorem separateOutputPaths_partition (l : List String) :
    (separateOutputPaths l).1.Sublist l ∧
    (separateOutputPaths l).2.Sublist l ∧
    ((separateOutputPaths l).1 ++ (separateOutputPaths l).2).Perm l ∧
    ∀ x : String,
      (separateOutputPaths l).1.count x + (separateOutputPaths l).2.count x
        = l.count x := by
  rw [separateOutputPaths_eq_filter]
  refine ⟨List.filter_sublist l, List.filter_sublist l,
    List.filter_append_perm isConsolePath l, ?_⟩
  intro x
  have h := (List.filter_append_perm isConsolePath l).count_eq x
  rw [List.count_append] at h
  exact h

/-- C2: when the resource carries attributes, every record delivered by the
assembled core — through the base console core, through every rotation file
core, and through the export tee — carries exactly one field named "resource",
a dict whose children are the attributes as strings; the injection happens at
core level only, so the count is one and never zero or two.  When the resource
has no attributes the injection stage is the identity on cores. -/
theorem resource_group_exactly_once (cfg : LogsConfig)
    (attrs : List (String × String)) (lvl : Int) (fs : List ZapField)
    (hattrs : attrs ≠ [])
    (hinit : resourceFieldCount cfg.initialFields = 0)
    (hfs : resourceFieldCount fs = 0) :
    ((deliveredRecords lvl (assembleCore cfg attrs) fs).all
        fun r => resourceFieldCount r == 1) = true ∧
    ∀ c : Core, applyResource [] c = c := by
  have hne : attrs.isEmpty = false := by
    cases attrs with
    | nil => exact absurd rfl hattrs
    | cons a t => rfl
  constructor
  · rw [List.all_eq_true]
    intro r hr
    rw [assembleCore] at hr
    simp only [applyExportTee, applyResource, hne, Bool.false_eq_true,
      if_false] at hr
    rw [deliveredRecords, deliveredRecords,
      deliveredRecords_applySampling] at hr
    rw [List.mem_cons] at hr
    rcases hr with hr | hr
    · subst hr
      rw [exportedRecord, if_neg (by rw [hne]; exact Bool.false_ne_true),
        resourceFieldCount_resourceField, hfs]
      rfl
    · rw [deliveredRecords] at hr
      have hcount :=
        deliveredRecords_applyRotation_count cfg lvl
          (resourceField attrs :: fs) hinit r
          (by simpa using hr)
      rw [hcount, resourceFieldCount_resourceField, hfs]
      rfl
  · intro c
    rfl

/-- C2 witness: the spec's `{service: "x"}` example on the rotated config; all
three delivered copies (console, normal rotation file, export) carry the
resource group once. -/
theorem resource_group_exactly_once_witness :
    exampleAttrs ≠ [] ∧
    ((deliveredRecords infoLevel
          (assembleCore exampleRotatedConfig exampleAttrs) []).all
        fun r => resourceFieldCount r == 1) = true :=
  ⟨by decide,
    (resource_group_exactly_once exampleRotatedConfig exampleAttrs infoLevel []
        (by decide) (by decide) (by decide)).1⟩

/-- C6: the stages are applied in the fixed source order — base core,
rotation, resource injection, sampling, export tee last — so with sampling
enabled and a non-empty resource, the assembled core nests the sampler
strictly outside the resource-injected core and the export tee outermost,
with the rotation stage innermost. -/
theorem stage_order (cfg : LogsConfig) (attrs : List (String × String))
    (s : SamplingConfig) (hs : cfg.sampling = some s) (hen : s.enabled = true)
    (hattrs : attrs ≠ []) :
    assembleCore cfg attrs =
      Core.otelTee serviceScopeName attrs
        (Core.consoleAttr
          (Core.sampler s.tick s.initial s.thereafter
            (Core.withFields [resourceField attrs]
              (applyRotation cfg (Core.base (zapConfigOf cfg)))))) := by
  have hne : attrs.isEmpty = false := by
    cases attrs with
    | nil => exact absurd rfl hattrs
    | cons a t => rfl
  rw [assembleCore]
  simp only [applyResource, hne, Bool.false_eq_true, if_false]
  rw [applySampling, hs]
  simp only [hen, if_true]
  rfl

/-- C6 witness: the fully featured example config assembles to exactly the
claimed nesting. -/
theorem stage_order_witness :
    exampleRotatedConfig.sampling = some exampleSampling ∧
    exampleSampling.enabled = true ∧
    exampleAttrs ≠ [] ∧
    assembleCore exampleRotatedConfig exampleAttrs =
      Core.otelTee serviceScopeName exampleAttrs
        (Core.consoleAttr
          (Core.sampler exampleSampling.tick exampleSampling.initial
            exampleSampling.thereafter
            (Core.withFields [resourceField exampleAttrs]
              (applyRotation exampleRotatedConfig
                (Core.base (zapConfigOf exampleRotatedConfig)))))) :=
  ⟨rfl, rfl, by decide,
    stage_order exampleRotatedConfig exampleAttrs exampleSampling rfl rfl
      (by decide)⟩

/-- C7 counterexample: with a successful zap build and a failing SDK
construction, `createLogger` does return an error with no logger and no
shutdown function, but the sinks opened by the base build — here stdout and
stderr — are NOT closed before the error is propagated: the error path at
logger.go lines 165-167 returns immediately without any cleanup. -/
theorem sdk_failure_sinks_left_open :
    (createLogger exampleConsoleConfig exampleAttrs true false).errored = true ∧
    (createLogger exampleConsoleConfig exampleAttrs true false).logger = none ∧
    (createLogger exampleConsoleConfig exampleAttrs true false).shutdown = false ∧
    (createLogger exampleConsoleConfig exampleAttrs true false).openSinks
      = ["stdout", "stderr"] ∧
    (createLogger exampleConsoleConfig exampleAttrs true false).openSinks ≠ [] := by
  decide

/-- C7 amended: on SDK-construction failure `createLogger` returns a non-nil
error, a nil logger and a nil shutdown function, but the destinations opened
while building the base core remain open (nothing closes them before the
error is propagated). -/
theorem sdk_failure_outcome (cfg : LogsConfig) (attrs : List (String × String)) :
    createLogger cfg attrs true false =
      { logger := none, shutdown := false, errored := true,
        openSinks := computedOutputPaths cfg ++ computedErrorOutputPaths cfg } := by
  rfl

/-- C8 counterexample: without rotation the stderr substitution never runs, so
a config with empty output-path lists reaches the base core build with an
empty list and no substitution — refuting the claim that this holds
"regardless of whether rotation is configured". -/
theorem empty_paths_pass_through_without_rotation :
    examplePlainEmptyConfig.rotation = none ∧
    examplePlainEmptyConfig.outputPaths = [] ∧
    computedOutputPaths examplePlainEmptyConfig = [] ∧
    computedOutputPaths examplePlainEmptyConfig ≠ ["stderr"] := by
  decide

/-- C8 amended: the output-target lists used to build the base core are
never empty WHEN ROTATION IS CONFIGURED (the stderr substitution guarantees
it); without rotation the configured lists pass through to the base core
unchanged, and may be empty with no substitution. -/
theorem base_paths_nonempty_under_rotation (cfg cfg2 : LogsConfig)
    (hrot : cfg.rotation.isSome = true) (hnone : cfg2.rotation = none) :
    computedOutputPaths cfg ≠ [] ∧
    computedErrorOutputPaths cfg ≠ [] ∧
    computedOutputPaths cfg2 = cfg2.outputPaths ∧
    computedErrorOutputPaths cfg2 = cfg2.errorOutputPaths := by
  refine ⟨computedOutputPaths_rot_ne_nil cfg hrot,
    computedErrorOutputPaths_rot_ne_nil cfg hrot, ?_, ?_⟩
  · unfold computedOutputPaths
    rw [hnone]
    rfl
  · unfold computedErrorOutputPaths
    rw [hnone]
    rfl

/-- C8 amended witness: the rotated example config keeps nonempty lists, the
plain empty config passes its empty lists through. -/
theorem base_paths_nonempty_under_rotation_witness :
    exampleRotatedConfig.rotation.isSome = true ∧
    examplePlainEmptyConfig.rotation = none ∧
    computedOutputPaths exampleRotatedConfig ≠ [] ∧
    computedOutputPaths examplePlainEmptyConfig = examplePlainEmptyConfig.outputPaths :=
  ⟨by decide, by decide,
    (base_paths_nonempty_under_rotation exampleRotatedConfig
        examplePlainEmptyConfig (by decide) (by decide)).1,
    (base_paths_nonempty_under_rotation exampleRotatedConfig
        examplePlainEmptyConfig (by decide) (by decide)).2.2.1⟩

/-- C9: for either configured encoding strategy ("json" machine-readable or
"console" human-readable), the encoder built for the rotation file cores is
the base core's own encoding, so every rotation-backed sink is
format-consistent with the live console output. -/
theorem rotation_encoder_matches_base (cfg : LogsConfig)
    (h : cfg.encoding = "json" ∨ cfg.encoding = "console") :
    rotationEncoding cfg.encoding = cfg.encoding ∧
    ((rotationFileCores cfg).all fun s => s.encoding == cfg.encoding) = true := by
  have h1 : rotationEncoding cfg.encoding = cfg.encoding := by
    rcases h with h | h <;> simp [rotationEncoding, h]
  refine ⟨h1, ?_⟩
  rw [List.all_eq_true]
  intro s hs
  have h2 : s.encoding = rotationEncoding cfg.encoding :=
    rotationFileCores_encoding cfg s hs
  rw [h2, h1]
  exact beq_self_eq_true cfg.encoding

/-- C9 witness: the JSON-encoded rotated example config; both its rotation
file cores carry the JSON encoder. -/
theorem rotation_encoder_matches_base_witness :
    (exampleRotatedConfig.encoding = "json" ∨
      exampleRotatedConfig.encoding = "console") ∧
    rotationEncoding exampleRotatedConfig.encoding = exampleRotatedConfig.encoding ∧
    ((rotationFileCores exampleRotatedConfig).all
        fun s => s.encoding == exampleRotatedConfig.encoding) = true :=
  ⟨Or.inl rfl,
    (rotation_encoder_matches_base exampleRotatedConfig (Or.inl rfl)).1,
    (rotation_encoder_matches_base exampleRotatedConfig (Or.inl rfl)).2⟩

/-- C10: with rotation configured, the rotation stage leaves the base core
unchanged exactly when classification finds no durable path in either list;
and as soon as one durable path exists the stage produces the tee of the base
core with the rotation file cores. -/
theorem rotation_applied_iff_durable (cfg : LogsConfig)
    (hrot : cfg.rotation.isSome = true) :
    (applyRotation cfg (Core.base (zapConfigOf cfg)) = Core.base (zapConfigOf cfg)
      ↔ (computedFilePaths cfg = [] ∧ computedErrorFilePaths cfg = [])) ∧
    ((computedFilePaths cfg ≠ [] ∨ computedErrorFilePaths cfg ≠ []) →
      applyRotation cfg (Core.base (zapConfigOf cfg))
        = Core.rotTee (Core.base (zapConfigOf cfg)) (rotationFileCores cfg)) := by
  constructor
  · unfold applyRotation
    rw [hrot, Bool.true_and]
    by_cases h1 : computedFilePaths cfg = [] <;>
      by_cases h2 : computedErrorFilePaths cfg = [] <;>
        simp [h1, h2, List.isEmpty_iff]
  · intro h
    unfold applyRotation
    rw [hrot, Bool.true_and]
    rcases h with h | h <;> simp [h, List.isEmpty_iff]

/-- C10 witness: with rotation configured and only console targets, the
rotation stage is the identity on the base core. -/
theorem rotation_applied_iff_durable_witness :
    exampleRotatedConsoleConfig.rotation.isSome = true ∧
    applyRotation exampleRotatedConsoleConfig
        (Core.base (zapConfigOf exampleRotatedConsoleConfig))
      = Core.base (zapConfigOf exampleRotatedConsoleConfig) :=
  ⟨by decide,
    (rotation_applied_iff_durable exampleRotatedConsoleConfig (by decide)).1.mpr
      (by decide)⟩
